import Mathlib

/-!
# Event-Based Branch facility API (`ebb/ebb.c`)

A shallow embedding of the EBB API implementation.  Every C function of
`ebb/ebb.c` becomes a function from the state of the calling thread to a
return value and the new state.  The state records the capability word,
`errno`, the thread-local handler information, the two special-purpose
registers the API writes, the state of the kernel, and the list of
system calls and register writes issued so far.

The kernel is an arbitrary transition system (`Kernel σ`): the theorems
quantify over every kernel, the examples run on a scripted one.

`paf_ebb_pmu_reset` is not part of the model: it consists of the two
register helpers `reset_mmcr0` and `reset_pmcs` of `ebb-priv.h`.
-/

namespace Paf

/-! ## Build target: what `config.h`, the headers and the linker fix -/

/-- Constants of the build that `ebb.c` takes from headers and from the
linker: whether `__powerpc64__` is defined, the capability bit, the four
callback trampolines as C function references, the word stored at an
address (used to read the first word of a function descriptor), and
`sizeof (struct perf_event_attr)`. -/
structure Target where
  powerpc64 : Bool
  PAF_EBB_FEATURE_HAS_EBB : Nat
  __paf_ebb_callback_handler_gpr : Nat
  __paf_ebb_callback_handler_fpr : Nat
  __paf_ebb_callback_handler_vr : Nat
  __paf_ebb_callback_handler_vsr : Nat
  load : Nat → Nat
  sizeof_perf_event_attr : Nat

/-- Width of a pointer: 64 bits on `__powerpc64__`, 32 bits otherwise. -/
def Target.ptr_bits (T : Target) : Nat := if T.powerpc64 then 64 else 32

/-- The null pointer. -/
def NULL : Nat := 0

/-- `#define EBB_REG_ERR ((ebbhandler_t) -1)`: the all-ones pointer. -/
def EBB_REG_ERR (T : Target) : Nat := 2 ^ T.ptr_bits - 1

/-- `ENOSYS` of `<errno.h>` on Linux. -/
def ENOSYS : Int := 38

/-- `EOF` of `<stdio.h>`. -/
def EOF : Int := -1

/-- `PERF_TYPE_RAW` of `<linux/perf_event.h>`. -/
def PERF_TYPE_RAW : Nat := 4

/-- The save policies of `paf/ebb.h`. -/
inductive paf_ebb_callback_type_t where
  | PAF_EBB_CALLBACK_GPR_SAVE
  | PAF_EBB_CALLBACK_FPR_SAVE
  | PAF_EBB_CALLBACK_VR_SAVE
  | PAF_EBB_CALLBACK_VSR_SAVE
  deriving DecidableEq, Repr

open paf_ebb_callback_type_t

/-! ## The kernel event-configuration record -/

/-- The fields of `struct perf_event_attr` (`<linux/perf_event.h>`), the
bit-fields included, each as its numeric value. -/
structure perf_event_attr where
  type : Nat
  size : Nat
  config : Nat
  sample_period : Nat
  sample_type : Nat
  read_format : Nat
  disabled : Nat
  inherit : Nat
  pinned : Nat
  exclusive : Nat
  exclude_user : Nat
  exclude_kernel : Nat
  exclude_hv : Nat
  exclude_idle : Nat
  mmap : Nat
  comm : Nat
  freq : Nat
  inherit_stat : Nat
  enable_on_exec : Nat
  task : Nat
  watermark : Nat
  precise_ip : Nat
  mmap_data : Nat
  sample_id_all : Nat
  exclude_host : Nat
  exclude_guest : Nat
  exclude_callchain_kernel : Nat
  exclude_callchain_user : Nat
  __reserved_1 : Nat
  wakeup_events : Nat
  bp_type : Nat
  config1 : Nat
  config2 : Nat
  branch_sample_type : Nat
  sample_regs_user : Nat
  sample_stack_user : Nat
  __reserved_2 : Nat
  deriving DecidableEq, Repr

/-- The record after `memset (&pe, 0, sizeof (struct perf_event_attr))`. -/
def perf_event_attr.zeroed : perf_event_attr :=
  ⟨0, 0, 0, 0, 0, 0, 0, 0, 0, 0, 0, 0, 0, 0, 0, 0, 0, 0, 0, 0, 0, 0, 0, 0, 0, 0, 0, 0, 0, 0,
   0, 0, 0, 0, 0, 0, 0⟩

/-! ## System calls, register writes and the thread state -/

/-- The two `ioctl` requests the API issues. -/
inductive ioctl_request where
  | PERF_EVENT_IOC_ENABLE
  | PERF_EVENT_IOC_DISABLE
  deriving DecidableEq, Repr

/-- The special-purpose registers written by `ebb.c` itself. -/
inductive Spr where
  | EBBHR
  | BESCR
  deriving DecidableEq, Repr

/-- One interaction with the kernel or the hardware, with its arguments. -/
inductive Event where
  | perf_event_open (pe : perf_event_attr) (pid cpu group : Int) (flags : Nat)
  | ioctl (fd : Int) (request : ioctl_request)
  | read (fd : Int) (nbytes : Nat)
  | close (fd : Int)
  | mtspr (spr : Spr) (value : Nat)
  deriving DecidableEq, Repr

/-- What a system call hands back: the return value, the value it stores
in `errno` (if it stores one) and the next state of the kernel. -/
structure SysResult (σ : Type) where
  ret : Int
  errno : Option Int
  kernel : σ

/-- The kernel as seen through the four system calls of `ebb.c`. -/
structure Kernel (σ : Type) where
  perf_event_open : σ → perf_event_attr → Int → Int → Int → Nat → SysResult σ
  ioctl : σ → Int → ioctl_request → SysResult σ
  read : σ → Int → Nat → SysResult σ
  close : σ → Int → SysResult σ

/-- Modelled from the spec: `struct ebb_thread_info_t` of `ebb-priv.h`,
which is not among the sources.  The Handler Descriptor holds the handler
entry point, the context pointer and the flags word; the Delivery State
holds the sample period. -/
structure ebb_thread_info_t where
  handler : Nat
  context : Nat
  sample_period : Nat
  flags : Int
  deriving DecidableEq, Repr

/-- State of the calling thread. -/
structure Thread (σ : Type) where
  __paf_ebb_hwcap : Nat
  errno : Int
  __paf_ebb_thread_info : ebb_thread_info_t
  EBBHR : Nat
  BESCR : Nat
  kernel : σ
  trace : List Event
  deriving DecidableEq

/-- The initial thread information `{ 0, NULL }` of `ebb.c`. -/
def ebb_thread_info_t.initial : ebb_thread_info_t := ⟨NULL, 0, 0, 0⟩

/-- Perform a system call: log it, take over the kernel state and the
`errno` it stored, and hand back its return value. -/
def Thread.syscall {σ : Type} (s : Thread σ) (e : Event) (r : SysResult σ) : Int × Thread σ :=
  (r.ret, { s with errno := r.errno.getD s.errno, kernel := r.kernel, trace := s.trace ++ [e] })

/-- The instruction `mtspr (spr, value)`: log it and write the register. -/
def mtspr {σ : Type} (spr : Spr) (value : Nat) (s : Thread σ) : Thread σ :=
  match spr with
  | .EBBHR => { s with EBBHR := value, trace := s.trace ++ [.mtspr .EBBHR value] }
  | .BESCR => { s with BESCR := value, trace := s.trace ++ [.mtspr .BESCR value] }

/-- Modelled from the spec: `__paf_ebb_get_thread_handler` of `ebb-priv.h`
reads the handler of the thread-local descriptor. -/
def __paf_ebb_get_thread_handler {σ : Type} (s : Thread σ) : Nat :=
  s.__paf_ebb_thread_info.handler

/-- Modelled from the spec: `__paf_ebb_set_thread_handler` of `ebb-priv.h`
stores the handler in the thread-local descriptor. -/
def __paf_ebb_set_thread_handler {σ : Type} (handler : Nat) (s : Thread σ) : Thread σ :=
  { s with __paf_ebb_thread_info := { s.__paf_ebb_thread_info with handler := handler } }

/-- Modelled from the spec: `__paf_ebb_set_thread_context` of `ebb-priv.h`
stores the context pointer in the thread-local descriptor. -/
def __paf_ebb_set_thread_context {σ : Type} (context : Nat) (s : Thread σ) : Thread σ :=
  { s with __paf_ebb_thread_info := { s.__paf_ebb_thread_info with context := context } }

/-- Modelled from the spec: `__paf_ebb_set_thread_flags` of `ebb-priv.h`
stores the flags word in the thread-local descriptor. -/
def __paf_ebb_set_thread_flags {σ : Type} (flags : Int) (s : Thread σ) : Thread σ :=
  { s with __paf_ebb_thread_info := { s.__paf_ebb_thread_info with flags := flags } }

/-- Modelled from the spec: `__paf_ebb_set_thread_sample_period` of
`ebb-priv.h` stores the reload value used by reset. -/
def __paf_ebb_set_thread_sample_period {σ : Type} (sample_period : Nat) (s : Thread σ) :
    Thread σ :=
  { s with __paf_ebb_thread_info :=
      { s.__paf_ebb_thread_info with sample_period := sample_period } }

/-- The test `__paf_ebb_hwcap & PAF_EBB_FEATURE_HAS_EBB` of the entry points. -/
def has_ebb {σ : Type} (T : Target) (s : Thread σ) : Bool :=
  s.__paf_ebb_hwcap &&& T.PAF_EBB_FEATURE_HAS_EBB != 0

/-! ## Counter events -/

/-- The configuration record that `paf_ebb_pmu_event_init` fills in before
the `perf_event_open` call (lines 62-73 of `ebb.c`). -/
def paf_ebb_pmu_event_init.pe (T : Target) (raw_event : Nat) (group : Int) : perf_event_attr :=
  { perf_event_attr.zeroed with
    type := PERF_TYPE_RAW
    size := T.sizeof_perf_event_attr
    config := (raw_event ||| 0x8000000000000000) % 2 ^ 64
    pinned := if group = -1 then 1 else 0
    exclusive := if group = -1 then 1 else 0
    exclude_kernel := 1
    exclude_hv := 1
    exclude_idle := 1 }

/-- The conversion of a `long` to `int` that the assignment
`fd = syscall (...)` performs: the value modulo 2^32, taken in the range
of `int`.  A value in the range of `int` is kept. -/
def to_int (x : Int) : Int := (x + 2147483648) % 4294967296 - 2147483648

/-- Helper function to start the Linux perf/EBB.  `syscall` returns a
`long`, which the function stores in `int fd`. -/
def paf_ebb_pmu_event_init {σ : Type} (T : Target) (K : Kernel σ) (raw_event : Nat)
    (group pid cpu : Int) (s : Thread σ) : Int × Thread σ :=
  let pe := paf_ebb_pmu_event_init.pe T raw_event group
  let (ret, s₁) := s.syscall (.perf_event_open pe pid cpu group 0)
    (K.perf_event_open s.kernel pe pid cpu group 0)
  let fd := to_int ret
  if fd = -1 then (-1, s₁)
  else
    let (en, s₂) := s₁.syscall (.ioctl fd .PERF_EVENT_IOC_ENABLE)
      (K.ioctl s₁.kernel fd .PERF_EVENT_IOC_ENABLE)
    if en ≠ 0 then
      let (_, s₃) := s₂.syscall (.close fd) (K.close s₂.kernel fd)
      (-1, s₃)
    else
      let (rd, s₃) := s₂.syscall (.read fd 8) (K.read s₂.kernel fd 8)
      if rd = EOF then
        let (_, s₄) := s₃.syscall (.close fd) (K.close s₃.kernel fd)
        (-1, s₄)
      else (fd, s₃)

/-- Open an EBB event on the calling thread, on any processor. -/
def paf_ebb_pmu_init {σ : Type} (T : Target) (K : Kernel σ) (raw_event : Nat) (group : Int)
    (s : Thread σ) : Int × Thread σ :=
  paf_ebb_pmu_event_init T K raw_event group 0 (-1) s

/-- Open an EBB event on the thread `pid`, on any processor. -/
def paf_ebb_pmu_init_with_pid {σ : Type} (T : Target) (K : Kernel σ) (raw_event : Nat)
    (group pid : Int) (s : Thread σ) : Int × Thread σ :=
  paf_ebb_pmu_event_init T K raw_event group pid (-1) s

/-- Open an EBB event on the calling thread, on the processor `cpu`. -/
def paf_ebb_pmu_init_with_cpu {σ : Type} (T : Target) (K : Kernel σ) (raw_event : Nat)
    (group cpu : Int) (s : Thread σ) : Int × Thread σ :=
  paf_ebb_pmu_event_init T K raw_event group 0 cpu s

/-- Disable the event, then close its descriptor. -/
def paf_ebb_event_close {σ : Type} (K : Kernel σ) (fd : Int) (s : Thread σ) : Int × Thread σ :=
  let (dis, s₁) := s.syscall (.ioctl fd .PERF_EVENT_IOC_DISABLE)
    (K.ioctl s.kernel fd .PERF_EVENT_IOC_DISABLE)
  if dis ≠ 0 then (-1, s₁)
  else s₁.syscall (.close fd) (K.close s₁.kernel fd)

/-- Store the sample period (a `uint32_t`) of the calling thread. -/
def paf_ebb_pmu_set_period {σ : Type} (sample_period : Nat) (s : Thread σ) : Thread σ :=
  __paf_ebb_set_thread_sample_period (sample_period % 2 ^ 32) s

/-! ## Handler registry -/

/-- Return the internal EBB callback function: the text address of the
trampoline for the save policy, read from its function descriptor on
`__powerpc64__`. -/
def __ebb_callback_handler_addr (T : Target) (type : paf_ebb_callback_type_t) : Nat :=
  let callback :=
    if type = PAF_EBB_CALLBACK_GPR_SAVE then T.__paf_ebb_callback_handler_gpr
    else if type = PAF_EBB_CALLBACK_FPR_SAVE then T.__paf_ebb_callback_handler_fpr
    else if type = PAF_EBB_CALLBACK_VR_SAVE then T.__paf_ebb_callback_handler_vr
    else T.__paf_ebb_callback_handler_vsr
  if T.powerpc64 then T.load callback else callback

/-- Return the thread handler registered with a previous
`paf_ebb_register_handler`. -/
def paf_ebb_handler {σ : Type} (T : Target) (s : Thread σ) : Nat × Thread σ :=
  if !has_ebb T s then (EBB_REG_ERR T, { s with errno := ENOSYS })
  else
    let ret := __paf_ebb_get_thread_handler s
    (if ret = NULL then EBB_REG_ERR T else ret, s)

/-- Register `handler` with its context and flags and point EBBHR at the
trampoline of the save policy. -/
def paf_ebb_register_handler {σ : Type} (T : Target) (handler context : Nat)
    (type : paf_ebb_callback_type_t) (flags : Int) (s : Thread σ) : Nat × Thread σ :=
  if !has_ebb T s then (EBB_REG_ERR T, { s with errno := ENOSYS })
  else if handler = NULL then (EBB_REG_ERR T, s)
  else
    let s₁ := __paf_ebb_set_thread_handler handler s
    let s₂ := __paf_ebb_set_thread_context context s₁
    let s₃ := __paf_ebb_set_thread_flags flags s₂
    let handlerfp := __ebb_callback_handler_addr T type
    (handler, mtspr .EBBHR handlerfp s₃)

/-! ## Delivery control -/

/-- Mask of the PMU Event-Based exception enable bit of BESCR: PME, bit 31
in the big-endian bit numbering of the 64-bit register. -/
def BESCR_PME : Nat := 2 ^ (63 - 31)

/-- Whether the PME bit is set in a value of BESCR. -/
def pme (bescr : Nat) : Bool := bescr.testBit (63 - 31)

/-- Modelled from the spec: the macro `PAF_EBB_ENABLE` of `ebb-priv.h`,
which is not among the sources: it "sets the global enable bit" of the
delivery-control register (PME - bit 31). -/
def PAF_EBB_ENABLE {σ : Type} (s : Thread σ) : Thread σ :=
  mtspr .BESCR (s.BESCR ||| BESCR_PME) s

/-- Modelled from the spec: the macro `PAF_EBB_DISABLE` of `ebb-priv.h`,
which is not among the sources: it "clears that bit" (PME - bit 31). -/
def PAF_EBB_DISABLE {σ : Type} (s : Thread σ) : Thread σ :=
  mtspr .BESCR (s.BESCR ^^^ (s.BESCR &&& BESCR_PME)) s

/-- Enable PMU Event-Based exceptions. -/
def paf_ebb_enable_branches {σ : Type} (T : Target) (s : Thread σ) : Int × Thread σ :=
  if !has_ebb T s then (-1, { s with errno := ENOSYS })
  else (0, PAF_EBB_ENABLE s)

/-- Disable PMU Event-Based exceptions. -/
def paf_ebb_disable_branches {σ : Type} (T : Target) (s : Thread σ) : Int × Thread σ :=
  if !has_ebb T s then (-1, { s with errno := ENOSYS })
  else (0, PAF_EBB_DISABLE s)

/-! ## Sequences of calls -/

/-- A call of an entry point other than `paf_ebb_register_handler`, with
its arguments.  (`paf_ebb_pmu_reset` is left out: it only runs the two
register helpers of `ebb-priv.h`.) -/
inductive Call where
  | pmu_init (raw_event : Nat) (group : Int)
  | pmu_init_with_pid (raw_event : Nat) (group pid : Int)
  | pmu_init_with_cpu (raw_event : Nat) (group cpu : Int)
  | event_close (fd : Int)
  | pmu_set_period (sample_period : Nat)
  | handler
  | enable_branches
  | disable_branches
  deriving DecidableEq, Repr

/-- The thread state after one call, its return value dropped. -/
def Call.run {σ : Type} (T : Target) (K : Kernel σ) (c : Call) (s : Thread σ) : Thread σ :=
  match c with
  | .pmu_init raw_event group => (paf_ebb_pmu_init T K raw_event group s).2
  | .pmu_init_with_pid raw_event group pid =>
      (paf_ebb_pmu_init_with_pid T K raw_event group pid s).2
  | .pmu_init_with_cpu raw_event group cpu =>
      (paf_ebb_pmu_init_with_cpu T K raw_event group cpu s).2
  | .event_close fd => (paf_ebb_event_close K fd s).2
  | .pmu_set_period sample_period => paf_ebb_pmu_set_period sample_period s
  | .handler => (paf_ebb_handler T s).2
  | .enable_branches => (paf_ebb_enable_branches T s).2
  | .disable_branches => (paf_ebb_disable_branches T s).2

/-- The thread state after a sequence of calls, made in order. -/
def run_calls {σ : Type} (T : Target) (K : Kernel σ) (cs : List Call) (s : Thread σ) :
    Thread σ :=
  cs.foldl (fun st c => c.run T K st) s

/-! ## A scripted kernel and a concrete target, to run the model -/

/-- Take the next return value of a script; a failure stores `EINVAL`. -/
def scripted_result (script : List Int) : SysResult (List Int) :=
  match script with
  | [] => ⟨-1, some 22, []⟩
  | r :: rest => ⟨r, if r = -1 then some 22 else none, rest⟩

/-- A kernel that answers every system call with the next value of a script. -/
def scripted : Kernel (List Int) where
  perf_event_open := fun k _ _ _ _ _ => scripted_result k
  ioctl := fun k _ _ => scripted_result k
  read := fun k _ _ => scripted_result k
  close := fun k _ => scripted_result k

/-- A 64-bit target whose four trampolines have their descriptors at
`0x1000`, `0x1010`, `0x1020`, `0x1030` and their text `0x4000` further up. -/
def ppc64 : Target where
  powerpc64 := true
  PAF_EBB_FEATURE_HAS_EBB := 1
  __paf_ebb_callback_handler_gpr := 0x1000
  __paf_ebb_callback_handler_fpr := 0x1010
  __paf_ebb_callback_handler_vr := 0x1020
  __paf_ebb_callback_handler_vsr := 0x1030
  load := fun a => a + 0x4000
  sizeof_perf_event_attr := 64

/-- A fresh thread with the given capability word and kernel script. -/
def fresh (hwcap : Nat) (script : List Int) : Thread (List Int) where
  __paf_ebb_hwcap := hwcap
  errno := 0
  __paf_ebb_thread_info := ebb_thread_info_t.initial
  EBBHR := 0
  BESCR := 0
  kernel := script
  trace := []

/-! ## What the claims speak of: trampolines and their entry addresses -/

/-- The trampoline variant the specification assigns to a save policy. -/
def trampoline (T : Target) : paf_ebb_callback_type_t → Nat
  | PAF_EBB_CALLBACK_GPR_SAVE => T.__paf_ebb_callback_handler_gpr
  | PAF_EBB_CALLBACK_FPR_SAVE => T.__paf_ebb_callback_handler_fpr
  | PAF_EBB_CALLBACK_VR_SAVE => T.__paf_ebb_callback_handler_vr
  | PAF_EBB_CALLBACK_VSR_SAVE => T.__paf_ebb_callback_handler_vsr

/-- The resolved entry address of a callable reference: the instruction
address held in its descriptor where the calling convention uses
descriptors, the reference itself elsewhere. -/
def entry_address (T : Target) (callable : Nat) : Nat :=
  if T.powerpc64 then T.load callable else callable

/-! ## Handler registry: theorems -/

/-- C2: with the capability present, registering the null handler returns
`EBB_REG_ERR` and leaves the whole thread state as it was (handler,
context, flags, EBBHR included), so that `paf_ebb_handler` answers after
the call what it answered before. -/
theorem register_null_handler_rejected {σ : Type} (T : Target) (context : Nat)
    (type : paf_ebb_callback_type_t) (flags : Int) (s : Thread σ)
    (hcap : has_ebb T s = true) :
    (paf_ebb_register_handler T NULL context type flags s).1 = EBB_REG_ERR T ∧
    (paf_ebb_register_handler T NULL context type flags s).2 = s ∧
    (paf_ebb_handler T (paf_ebb_register_handler T NULL context type flags s).2).1
      = (paf_ebb_handler T s).1 := by
  simp [paf_ebb_register_handler, hcap]

/-- An instance of C2: a thread that registered `0x5000` keeps it when a
null handler is offered next. -/
theorem register_null_handler_rejected_witness :
    has_ebb ppc64 (paf_ebb_register_handler ppc64 0x5000 7 PAF_EBB_CALLBACK_FPR_SAVE 1
      (fresh 1 [])).2 = true ∧
    (paf_ebb_handler ppc64 (paf_ebb_register_handler ppc64 NULL 9 PAF_EBB_CALLBACK_VR_SAVE 0
      (paf_ebb_register_handler ppc64 0x5000 7 PAF_EBB_CALLBACK_FPR_SAVE 1
        (fresh 1 [])).2).2).1 = 0x5000 :=
  ⟨by decide,
   (register_null_handler_rejected ppc64 9 PAF_EBB_CALLBACK_VR_SAVE 0
      (paf_ebb_register_handler ppc64 0x5000 7 PAF_EBB_CALLBACK_FPR_SAVE 1 (fresh 1 [])).2
      (by decide)).2.2.trans (by decide)⟩

/-- The event-opening helper touches neither the capability word nor the
registered handler. -/
theorem event_init_keeps_handler {σ : Type} (T : Target) (K : Kernel σ) (raw_event : Nat)
    (group pid cpu : Int) (s : Thread σ) :
    (paf_ebb_pmu_event_init T K raw_event group pid cpu s).2.__paf_ebb_hwcap
      = s.__paf_ebb_hwcap ∧
    (paf_ebb_pmu_event_init T K raw_event group pid cpu s).2.__paf_ebb_thread_info.handler
      = s.__paf_ebb_thread_info.handler := by
  simp only [paf_ebb_pmu_event_init, Thread.syscall]
  split_ifs <;> simp

/-- No call other than a registration touches the capability word or the
registered handler. -/
theorem call_keeps_handler {σ : Type} (T : Target) (K : Kernel σ) (c : Call) (s : Thread σ) :
    (c.run T K s).__paf_ebb_hwcap = s.__paf_ebb_hwcap ∧
    (c.run T K s).__paf_ebb_thread_info.handler = s.__paf_ebb_thread_info.handler := by
  cases c with
  | pmu_init raw_event group => exact event_init_keeps_handler T K raw_event group 0 (-1) s
  | pmu_init_with_pid raw_event group pid =>
      exact event_init_keeps_handler T K raw_event group pid (-1) s
  | pmu_init_with_cpu raw_event group cpu =>
      exact event_init_keeps_handler T K raw_event group 0 cpu s
  | event_close fd =>
      simp only [Call.run, paf_ebb_event_close, Thread.syscall]
      split_ifs <;> simp
  | pmu_set_period sample_period =>
      simp [Call.run, paf_ebb_pmu_set_period, __paf_ebb_set_thread_sample_period]
  | handler =>
      simp only [Call.run, paf_ebb_handler]
      split_ifs <;> simp
  | enable_branches =>
      simp only [Call.run, paf_ebb_enable_branches, PAF_EBB_ENABLE, mtspr]
      split_ifs <;> simp
  | disable_branches =>
      simp only [Call.run, paf_ebb_disable_branches, PAF_EBB_DISABLE, mtspr]
      split_ifs <;> simp

/-- A sequence of calls without a registration touches neither the
capability word nor the registered handler. -/
theorem run_calls_keeps_handler {σ : Type} (T : Target) (K : Kernel σ) (cs : List Call)
    (s : Thread σ) :
    (run_calls T K cs s).__paf_ebb_hwcap = s.__paf_ebb_hwcap ∧
    (run_calls T K cs s).__paf_ebb_thread_info.handler
      = s.__paf_ebb_thread_info.handler := by
  induction cs generalizing s with
  | nil => exact ⟨rfl, rfl⟩
  | cons c cs ih =>
      have h₁ := call_keeps_handler T K c s
      have h₂ := ih (c.run T K s)
      simp only [run_calls, List.foldl_cons] at h₂ ⊢
      exact ⟨h₂.1.trans h₁.1, h₂.2.trans h₁.2⟩

/-- C3: with the capability present, registering a non-null handler `h`
returns `h`, and `paf_ebb_handler` called afterwards returns `h`, whatever
was registered before: right after the registration, and also after any
sequence of calls of the other entry points in between. -/
theorem register_then_query {σ : Type} (T : Target) (K : Kernel σ) (h context : Nat)
    (type : paf_ebb_callback_type_t) (flags : Int) (s : Thread σ) (cs : List Call)
    (hcap : has_ebb T s = true) (hh : h ≠ NULL) :
    (paf_ebb_register_handler T h context type flags s).1 = h ∧
    (paf_ebb_handler T (paf_ebb_register_handler T h context type flags s).2).1 = h ∧
    (paf_ebb_handler T
      (run_calls T K cs (paf_ebb_register_handler T h context type flags s).2)).1 = h := by
  have hreg : paf_ebb_register_handler T h context type flags s
      = (h, mtspr .EBBHR (__ebb_callback_handler_addr T type)
          (__paf_ebb_set_thread_flags flags (__paf_ebb_set_thread_context context
            (__paf_ebb_set_thread_handler h s)))) := by
    simp [paf_ebb_register_handler, hcap, hh]
  have hquery : ∀ st : Thread σ, st.__paf_ebb_hwcap = s.__paf_ebb_hwcap →
      st.__paf_ebb_thread_info.handler = h → (paf_ebb_handler T st).1 = h := by
    intro st h₁ h₂
    have hc : has_ebb T st = true := by
      simpa [has_ebb, h₁] using hcap
    simp [paf_ebb_handler, hc, __paf_ebb_get_thread_handler, h₂, hh]
  rw [hreg]
  refine ⟨rfl, hquery _ rfl rfl, hquery _ ?_ ?_⟩
  · exact (run_calls_keeps_handler T K cs _).1
  · exact (run_calls_keeps_handler T K cs _).2

/-- An instance of C3 on a fresh thread: the handler is still reported
after a period is set, an event is opened and branches are enabled. -/
theorem register_then_query_witness :
    has_ebb ppc64 (fresh 1 [3, 0, 8]) = true ∧ (0x5000 : Nat) ≠ NULL ∧
    (paf_ebb_register_handler ppc64 0x5000 7 PAF_EBB_CALLBACK_GPR_SAVE 1
      (fresh 1 [3, 0, 8])).1 = 0x5000 ∧
    (paf_ebb_handler ppc64
      (paf_ebb_register_handler ppc64 0x5000 7 PAF_EBB_CALLBACK_GPR_SAVE 1
        (fresh 1 [3, 0, 8])).2).1 = 0x5000 ∧
    (paf_ebb_handler ppc64
      (run_calls ppc64 scripted [.pmu_set_period 1000, .pmu_init 0x1001e (-1), .enable_branches]
        (paf_ebb_register_handler ppc64 0x5000 7 PAF_EBB_CALLBACK_GPR_SAVE 1
          (fresh 1 [3, 0, 8])).2)).1 = 0x5000 :=
  ⟨by decide, by decide,
   register_then_query ppc64 scripted 0x5000 7 PAF_EBB_CALLBACK_GPR_SAVE 1 (fresh 1 [3, 0, 8])
     [.pmu_set_period 1000, .pmu_init 0x1001e (-1), .enable_branches] (by decide) (by decide)⟩

/-- C10: with the capability present, registering a non-null handler
leaves the thread-local descriptor equal to (handler, context, flags)
whatever it held before, leaves EBBHR equal to the resolved entry address
of the trampoline of the save policy, and enables nothing: BESCR, the
sample period, `errno` and the kernel are untouched, and the only thing
issued is the one write of EBBHR (no system call). -/
theorem register_handler_installs {σ : Type} (T : Target) (h c : Nat)
    (t : paf_ebb_callback_type_t) (f : Int) (s : Thread σ)
    (hcap : has_ebb T s = true) (hh : h ≠ NULL) :
    (paf_ebb_register_handler T h c t f s).2.__paf_ebb_thread_info.handler = h ∧
    (paf_ebb_register_handler T h c t f s).2.__paf_ebb_thread_info.context = c ∧
    (paf_ebb_register_handler T h c t f s).2.__paf_ebb_thread_info.flags = f ∧
    (paf_ebb_register_handler T h c t f s).2.EBBHR = entry_address T (trampoline T t) ∧
    (paf_ebb_register_handler T h c t f s).2.BESCR = s.BESCR ∧
    (paf_ebb_register_handler T h c t f s).2.__paf_ebb_thread_info.sample_period
      = s.__paf_ebb_thread_info.sample_period ∧
    (paf_ebb_register_handler T h c t f s).2.errno = s.errno ∧
    (paf_ebb_register_handler T h c t f s).2.kernel = s.kernel ∧
    (paf_ebb_register_handler T h c t f s).2.trace
      = s.trace ++ [.mtspr .EBBHR (entry_address T (trampoline T t))] := by
  have haddr : __ebb_callback_handler_addr T t = entry_address T (trampoline T t) := by
    cases t <;> simp [__ebb_callback_handler_addr, entry_address, trampoline]
  simp [paf_ebb_register_handler, hcap, hh, mtspr, haddr, __paf_ebb_set_thread_handler,
    __paf_ebb_set_thread_context, __paf_ebb_set_thread_flags]

/-- An instance of C10: the four save policies on the 64-bit target, each
over a descriptor registered before. -/
theorem register_handler_installs_witness :
    has_ebb ppc64 (fresh 1 []) = true ∧ (0x5000 : Nat) ≠ NULL ∧
    (paf_ebb_register_handler ppc64 0x5000 7 PAF_EBB_CALLBACK_VSR_SAVE 1
      (fresh 1 [])).2.EBBHR = 0x5030 ∧
    (paf_ebb_register_handler ppc64 0x5000 7 PAF_EBB_CALLBACK_VSR_SAVE 1
      (fresh 1 [])).2.trace = [.mtspr .EBBHR 0x5030] :=
  ⟨by decide, by decide,
   (register_handler_installs ppc64 0x5000 7 PAF_EBB_CALLBACK_VSR_SAVE 1 (fresh 1 [])
      (by decide) (by decide)).2.2.2.1.trans (by decide),
   (register_handler_installs ppc64 0x5000 7 PAF_EBB_CALLBACK_VSR_SAVE 1 (fresh 1 [])
      (by decide) (by decide)).2.2.2.2.2.2.2.2.trans (by decide)⟩

/-- C8: on a thread with the capability present and no handler registered
(the slot holds its initial `NULL`), `paf_ebb_handler` returns
`EBB_REG_ERR`, the all-ones pointer, and not `NULL`. -/
theorem handler_unregistered_is_reg_err :
    has_ebb ppc64 (fresh 1 []) = true ∧
    __paf_ebb_get_thread_handler (fresh 1 []) = NULL ∧
    (paf_ebb_handler ppc64 (fresh 1 [])).1 = EBB_REG_ERR ppc64 ∧
    (paf_ebb_handler ppc64 (fresh 1 [])).1 = 0xffffffffffffffff ∧
    (paf_ebb_handler ppc64 (fresh 1 [])).1 ≠ NULL := by
  decide

/-- C9: with the capability present and `errno` holding 0, the rejection
of a null handler and the query on a thread without a handler both return
`EBB_REG_ERR` and leave `errno` at 0: neither call stores an error code. -/
theorem reg_err_without_errno :
    has_ebb ppc64 (fresh 1 []) = true ∧ (fresh 1 []).errno = 0 ∧
    (paf_ebb_register_handler ppc64 NULL 7 PAF_EBB_CALLBACK_GPR_SAVE 0 (fresh 1 [])).1
      = EBB_REG_ERR ppc64 ∧
    (paf_ebb_register_handler ppc64 NULL 7 PAF_EBB_CALLBACK_GPR_SAVE 0 (fresh 1 [])).2.errno
      = 0 ∧
    (paf_ebb_handler ppc64 (fresh 1 [])).1 = EBB_REG_ERR ppc64 ∧
    (paf_ebb_handler ppc64 (fresh 1 [])).2.errno = 0 ∧
    (paf_ebb_handler ppc64 (fresh 0 [])).2.errno = ENOSYS := by
  decide

/-! ## Counter events: theorems -/

/-- C5: `paf_ebb_event_close` issues the disable `ioctl` first.  If it
fails the result is -1 and nothing else is issued (the descriptor is not
closed); if it succeeds the descriptor is closed once, after the disable,
and the result is the result of `close`. -/
theorem event_close_disables_first {σ : Type} (K : Kernel σ) (fd : Int) (s : Thread σ) :
    ((K.ioctl s.kernel fd .PERF_EVENT_IOC_DISABLE).ret ≠ 0 →
      (paf_ebb_event_close K fd s).1 = -1 ∧
      (paf_ebb_event_close K fd s).2.trace
        = s.trace ++ [.ioctl fd .PERF_EVENT_IOC_DISABLE]) ∧
    ((K.ioctl s.kernel fd .PERF_EVENT_IOC_DISABLE).ret = 0 →
      (paf_ebb_event_close K fd s).1
        = (K.close (K.ioctl s.kernel fd .PERF_EVENT_IOC_DISABLE).kernel fd).ret ∧
      (paf_ebb_event_close K fd s).2.trace
        = s.trace ++ [.ioctl fd .PERF_EVENT_IOC_DISABLE, .close fd]) := by
  constructor
  · intro h
    simp [paf_ebb_event_close, Thread.syscall, h]
  · intro h
    simp [paf_ebb_event_close, Thread.syscall, h]

/-- An instance of C5: a failing disable, then a disable that succeeds
followed by a `close` that returns 0. -/
theorem event_close_disables_first_witness :
    (scripted.ioctl [-1] 5 .PERF_EVENT_IOC_DISABLE).ret ≠ 0 ∧
    ((paf_ebb_event_close scripted 5 (fresh 1 [-1])).1 = -1 ∧
     (paf_ebb_event_close scripted 5 (fresh 1 [-1])).2.trace
       = [.ioctl 5 .PERF_EVENT_IOC_DISABLE]) ∧
    (scripted.ioctl [0, 0] 5 .PERF_EVENT_IOC_DISABLE).ret = 0 ∧
    ((paf_ebb_event_close scripted 5 (fresh 1 [0, 0])).1 = 0 ∧
     (paf_ebb_event_close scripted 5 (fresh 1 [0, 0])).2.trace
       = [.ioctl 5 .PERF_EVENT_IOC_DISABLE, .close 5]) :=
  ⟨by decide,
   (event_close_disables_first scripted 5 (fresh 1 [-1])).1 (by decide),
   by decide,
   (event_close_disables_first scripted 5 (fresh 1 [0, 0])).2 (by decide)⟩

/-- C4: in `paf_ebb_pmu_event_init`, with `fd` the descriptor the function
holds (the answer of `perf_event_open` stored in `int fd`, which is that
answer itself whenever it is in the range of `int`): if `perf_event_open`
fails (`fd` is -1) the result is -1 and nothing further is issued; if it
yields a descriptor and the enable `ioctl` fails, or the enable succeeds
and the verifying `read` fails, the descriptor is closed once, as the last
call, and the result is -1; and a result other than -1 is the descriptor
that was opened, after exactly open, enable and read on it and no
`close`. -/
theorem event_init_all_or_nothing {σ : Type} (T : Target) (K : Kernel σ) (raw_event : Nat)
    (group pid cpu : Int) (s : Thread σ) :
    let pe := paf_ebb_pmu_event_init.pe T raw_event group
    let o := K.perf_event_open s.kernel pe pid cpu group 0
    let fd := to_int o.ret
    let e := K.ioctl o.kernel fd .PERF_EVENT_IOC_ENABLE
    let r := K.read e.kernel fd 8
    let out := paf_ebb_pmu_event_init T K raw_event group pid cpu s
    (-2147483648 ≤ o.ret → o.ret ≤ 2147483647 → fd = o.ret) ∧
    (fd = -1 →
      out.1 = -1 ∧ out.2.trace = s.trace ++ [.perf_event_open pe pid cpu group 0]) ∧
    (fd ≠ -1 → e.ret ≠ 0 →
      out.1 = -1 ∧
      out.2.trace = s.trace ++ [.perf_event_open pe pid cpu group 0,
        .ioctl fd .PERF_EVENT_IOC_ENABLE, .close fd]) ∧
    (fd ≠ -1 → e.ret = 0 → r.ret = -1 →
      out.1 = -1 ∧
      out.2.trace = s.trace ++ [.perf_event_open pe pid cpu group 0,
        .ioctl fd .PERF_EVENT_IOC_ENABLE, .read fd 8, .close fd]) ∧
    (out.1 ≠ -1 →
      out.1 = fd ∧ e.ret = 0 ∧ r.ret ≠ -1 ∧
      out.2.trace = s.trace ++ [.perf_event_open pe pid cpu group 0,
        .ioctl out.1 .PERF_EVENT_IOC_ENABLE, .read out.1 8]) := by
  intro pe o fd e r out
  refine ⟨?_, ?_, ?_, ?_, ?_⟩
  · intro hlo hhi
    simp only [fd, to_int]
    omega
  · intro ho
    simp only [fd, o, pe] at ho
    simp [out, paf_ebb_pmu_event_init, Thread.syscall, o, pe, ho]
  · intro ho he
    simp only [fd, o, e, pe] at ho he
    simp [out, paf_ebb_pmu_event_init, Thread.syscall, fd, o, e, pe, ho, he]
  · intro ho he hr
    simp only [fd, o, e, r, pe] at ho he hr
    simp [out, paf_ebb_pmu_event_init, Thread.syscall, fd, o, e, r, pe, ho, he, hr, EOF]
  · intro hout
    by_cases ho : fd = -1
    · simp only [fd, o, pe] at ho
      simp [out, paf_ebb_pmu_event_init, Thread.syscall, ho] at hout
    · by_cases he : e.ret = 0
      · by_cases hr : r.ret = -1
        · simp only [fd, o, e, r, pe] at ho he hr
          simp [out, paf_ebb_pmu_event_init, Thread.syscall, ho, he, hr, EOF] at hout
        · simp only [fd, o, e, r, pe] at ho he hr
          simp [out, paf_ebb_pmu_event_init, Thread.syscall, fd, o, e, r, pe, ho, he, hr, EOF]
      · simp only [fd, o, e, pe] at ho he
        simp [out, paf_ebb_pmu_event_init, Thread.syscall, ho, he] at hout

/-- An instance of C4 for each of its cases: an answer in the range of
`int` is the descriptor held, then a failing open, a failing enable on
descriptor 3, a failing read on descriptor 3, and the run in which all
three succeed. -/
theorem event_init_all_or_nothing_witness :
    to_int 3 = 3 ∧
    ((paf_ebb_pmu_event_init ppc64 scripted 0x1001e (-1) 0 (-1) (fresh 1 [-1])).1 = -1 ∧
     (paf_ebb_pmu_event_init ppc64 scripted 0x1001e (-1) 0 (-1) (fresh 1 [-1])).2.trace
       = [.perf_event_open (paf_ebb_pmu_event_init.pe ppc64 0x1001e (-1)) 0 (-1) (-1) 0]) ∧
    ((paf_ebb_pmu_event_init ppc64 scripted 0x1001e (-1) 0 (-1) (fresh 1 [3, -1, 0])).1 = -1 ∧
     (paf_ebb_pmu_event_init ppc64 scripted 0x1001e (-1) 0 (-1) (fresh 1 [3, -1, 0])).2.trace
       = [.perf_event_open (paf_ebb_pmu_event_init.pe ppc64 0x1001e (-1)) 0 (-1) (-1) 0,
          .ioctl 3 .PERF_EVENT_IOC_ENABLE, .close 3]) ∧
    ((paf_ebb_pmu_event_init ppc64 scripted 0x1001e (-1) 0 (-1)
        (fresh 1 [3, 0, -1, 0])).1 = -1 ∧
     (paf_ebb_pmu_event_init ppc64 scripted 0x1001e (-1) 0 (-1)
        (fresh 1 [3, 0, -1, 0])).2.trace
       = [.perf_event_open (paf_ebb_pmu_event_init.pe ppc64 0x1001e (-1)) 0 (-1) (-1) 0,
          .ioctl 3 .PERF_EVENT_IOC_ENABLE, .read 3 8, .close 3]) ∧
    (paf_ebb_pmu_event_init ppc64 scripted 0x1001e (-1) 0 (-1) (fresh 1 [3, 0, 8])).1 = 3 :=
  ⟨(event_init_all_or_nothing ppc64 scripted 0x1001e (-1) 0 (-1) (fresh 1 [3, 0, 8])).1
     (by decide) (by decide),
   (event_init_all_or_nothing ppc64 scripted 0x1001e (-1) 0 (-1) (fresh 1 [-1])).2.1
     (by decide),
   (event_init_all_or_nothing ppc64 scripted 0x1001e (-1) 0 (-1)
     (fresh 1 [3, -1, 0])).2.2.1 (by decide) (by decide),
   (event_init_all_or_nothing ppc64 scripted 0x1001e (-1) 0 (-1)
     (fresh 1 [3, 0, -1, 0])).2.2.2.1 (by decide) (by decide) (by decide),
   ((event_init_all_or_nothing ppc64 scripted 0x1001e (-1) 0 (-1)
     (fresh 1 [3, 0, 8])).2.2.2.2 (by decide)).1.trans (by decide)⟩

/-- C7, as the code has it: for a 64-bit `raw_event`, the record passed to
`perf_event_open` has type `PERF_TYPE_RAW`, size
`sizeof (struct perf_event_attr)`, config `raw_event` with bit 63 set and
every other bit as in `raw_event`, pinned and exclusive 1 exactly when
`group` is -1 and 0 otherwise, the three exclude flags 1, and every other
field zero; the first call issued is `perf_event_open` with that record,
`pid`, `cpu`, `group` and flags 0, where the three public entry points
supply `(0, -1)`, `(pid, -1)` and `(0, cpu)` for `(pid, cpu)`. -/
theorem event_init_attr_record {σ : Type} (T : Target) (K : Kernel σ) (raw_event : Nat)
    (group pid cpu : Int) (s : Thread σ) (hraw : raw_event < 2 ^ 64) :
    paf_ebb_pmu_event_init.pe T raw_event group =
      { perf_event_attr.zeroed with
        type := PERF_TYPE_RAW
        size := T.sizeof_perf_event_attr
        config := raw_event ||| 0x8000000000000000
        pinned := if group = -1 then 1 else 0
        exclusive := if group = -1 then 1 else 0
        exclude_kernel := 1
        exclude_hv := 1
        exclude_idle := 1 } ∧
    (paf_ebb_pmu_event_init.pe T raw_event group).config.testBit 63 = true ∧
    (∀ i, i ≠ 63 →
      (paf_ebb_pmu_event_init.pe T raw_event group).config.testBit i = raw_event.testBit i) ∧
    ((paf_ebb_pmu_event_init.pe T raw_event group).pinned = 1 ↔ group = -1) ∧
    ((paf_ebb_pmu_event_init.pe T raw_event group).exclusive = 1 ↔ group = -1) ∧
    (∃ rest, (paf_ebb_pmu_event_init T K raw_event group pid cpu s).2.trace
      = s.trace ++
        .perf_event_open (paf_ebb_pmu_event_init.pe T raw_event group) pid cpu group 0
          :: rest) ∧
    paf_ebb_pmu_init T K raw_event group s
      = paf_ebb_pmu_event_init T K raw_event group 0 (-1) s ∧
    paf_ebb_pmu_init_with_pid T K raw_event group pid s
      = paf_ebb_pmu_event_init T K raw_event group pid (-1) s ∧
    paf_ebb_pmu_init_with_cpu T K raw_event group cpu s
      = paf_ebb_pmu_event_init T K raw_event group 0 cpu s := by
  have h63 : (0x8000000000000000 : Nat) = 2 ^ 63 := by norm_num
  have hlt : raw_event ||| 0x8000000000000000 < 2 ^ 64 :=
    Nat.or_lt_two_pow hraw (by norm_num)
  have hcfg : (paf_ebb_pmu_event_init.pe T raw_event group).config
      = raw_event ||| 2 ^ 63 := by
    simp only [paf_ebb_pmu_event_init.pe, Nat.mod_eq_of_lt hlt]
    rw [h63]
  refine ⟨?_, ?_, ?_, ?_, ?_, ?_, rfl, rfl, rfl⟩
  · simp only [paf_ebb_pmu_event_init.pe, Nat.mod_eq_of_lt hlt]
  · rw [hcfg, Nat.testBit_or, Nat.testBit_two_pow_self, Bool.or_true]
  · intro i hi
    rw [hcfg, Nat.testBit_or, Nat.testBit_two_pow_of_ne (Ne.symm hi), Bool.or_false]
  · by_cases hg : group = -1 <;> simp [paf_ebb_pmu_event_init.pe, hg]
  · by_cases hg : group = -1 <;> simp [paf_ebb_pmu_event_init.pe, hg]
  · simp only [paf_ebb_pmu_event_init, Thread.syscall]
    split_ifs <;> simp

/-- An instance of C7: the event `0x1001e` of the tests, as its own group
leader, opened on thread 42. -/
theorem event_init_attr_record_witness :
    (0x1001e : Nat) < 2 ^ 64 ∧
    (paf_ebb_pmu_event_init.pe ppc64 0x1001e (-1)).config = 0x800000000001001e ∧
    (paf_ebb_pmu_event_init.pe ppc64 0x1001e (-1)).pinned = 1 ∧
    paf_ebb_pmu_init_with_pid ppc64 scripted 0x1001e (-1) 42 (fresh 1 [3, 0, 8])
      = paf_ebb_pmu_event_init ppc64 scripted 0x1001e (-1) 42 (-1) (fresh 1 [3, 0, 8]) :=
  ⟨by decide,
   (congrArg perf_event_attr.config
      (event_init_attr_record ppc64 scripted 0x1001e (-1) 42 (-1) (fresh 1 [3, 0, 8])
        (by decide)).1).trans (by decide),
   (event_init_attr_record ppc64 scripted 0x1001e (-1) 42 (-1) (fresh 1 [3, 0, 8])
      (by decide)).2.2.2.1.mpr rfl,
   (event_init_attr_record ppc64 scripted 0x1001e (-1) 42 (-1) (fresh 1 [3, 0, 8])
      (by decide)).2.2.2.2.2.2.2.1⟩

/-- C7 as stated fails: the size field of the record is
`sizeof (struct perf_event_attr)`, here 64 bytes, and not zero. -/
theorem event_init_attr_size_set :
    (paf_ebb_pmu_event_init.pe ppc64 0x1001e (-1)).size = 64 ∧
    ¬ (paf_ebb_pmu_event_init.pe ppc64 0x1001e (-1)).size = 0 := by
  decide

/-! ## Capability gate: theorems -/

/-- C1, as the code has it: when the capability word lacks `HAS_EBB`, each
of `paf_ebb_handler`, `paf_ebb_register_handler`, `paf_ebb_enable_branches`
and `paf_ebb_disable_branches` returns its error value (`EBB_REG_ERR`,
respectively -1) and changes nothing of the thread state but `errno`,
which becomes `ENOSYS`: no system call and no register write is issued,
and the thread-local descriptor and sample period stay as they were. -/
theorem gated_entry_points_unsupported {σ : Type} (T : Target) (handler context : Nat)
    (type : paf_ebb_callback_type_t) (flags : Int) (s : Thread σ)
    (hcap : has_ebb T s = false) :
    paf_ebb_handler T s = (EBB_REG_ERR T, { s with errno := ENOSYS }) ∧
    paf_ebb_register_handler T handler context type flags s
      = (EBB_REG_ERR T, { s with errno := ENOSYS }) ∧
    paf_ebb_enable_branches T s = (-1, { s with errno := ENOSYS }) ∧
    paf_ebb_disable_branches T s = (-1, { s with errno := ENOSYS }) ∧
    ({ s with errno := ENOSYS } : Thread σ).trace = s.trace ∧
    ({ s with errno := ENOSYS } : Thread σ).kernel = s.kernel ∧
    ({ s with errno := ENOSYS } : Thread σ).EBBHR = s.EBBHR ∧
    ({ s with errno := ENOSYS } : Thread σ).BESCR = s.BESCR ∧
    ({ s with errno := ENOSYS } : Thread σ).__paf_ebb_thread_info
      = s.__paf_ebb_thread_info := by
  simp [paf_ebb_handler, paf_ebb_register_handler, paf_ebb_enable_branches,
    paf_ebb_disable_branches, hcap]

/-- An instance of C1 as amended: a thread without the capability that
offers a valid handler. -/
theorem gated_entry_points_unsupported_witness :
    has_ebb ppc64 (fresh 0 [3, 0, 8]) = false ∧
    paf_ebb_register_handler ppc64 0x5000 7 PAF_EBB_CALLBACK_GPR_SAVE 1 (fresh 0 [3, 0, 8])
      = (0xffffffffffffffff, { fresh 0 [3, 0, 8] with errno := 38 }) :=
  ⟨by decide,
   (gated_entry_points_unsupported ppc64 0x5000 7 PAF_EBB_CALLBACK_GPR_SAVE 1
      (fresh 0 [3, 0, 8]) (by decide)).2.1.trans (by decide)⟩

/-- C1 as stated fails: on a thread whose capability word lacks `HAS_EBB`,
`paf_ebb_pmu_init` issues `perf_event_open`, the enable `ioctl` and the
`read` and returns the descriptor, `paf_ebb_event_close` issues the disable
`ioctl` and `close`, and `paf_ebb_pmu_set_period` stores the period in the
thread-local state. -/
theorem ungated_entry_points :
    has_ebb ppc64 (fresh 0 [3, 0, 8]) = false ∧
    (paf_ebb_pmu_init ppc64 scripted 0x1001e (-1) (fresh 0 [3, 0, 8])).1 = 3 ∧
    (paf_ebb_pmu_init ppc64 scripted 0x1001e (-1) (fresh 0 [3, 0, 8])).2.trace
      = [.perf_event_open (paf_ebb_pmu_event_init.pe ppc64 0x1001e (-1)) 0 (-1) (-1) 0,
         .ioctl 3 .PERF_EVENT_IOC_ENABLE, .read 3 8] ∧
    (paf_ebb_pmu_init ppc64 scripted 0x1001e (-1) (fresh 0 [3, 0, 8])).2.errno = 0 ∧
    (paf_ebb_event_close scripted 3 (fresh 0 [0, 0])).2.trace
      = [.ioctl 3 .PERF_EVENT_IOC_DISABLE, .close 3] ∧
    (fresh 0 []).__paf_ebb_thread_info.sample_period = 0 ∧
    (paf_ebb_pmu_set_period 1000 (fresh 0 [])).__paf_ebb_thread_info.sample_period = 1000 := by
  decide

/-! ## Delivery control: theorems -/

/-- C6, as the code has it: with the capability present, enabling and then
disabling returns 0 twice and leaves the PME bit clear whatever it was
before (it is set in between); so the bit is as it was before the enable
call exactly when it was clear then. -/
theorem enable_then_disable {σ : Type} (T : Target) (s : Thread σ)
    (hcap : has_ebb T s = true) :
    (paf_ebb_enable_branches T s).1 = 0 ∧
    (paf_ebb_disable_branches T (paf_ebb_enable_branches T s).2).1 = 0 ∧
    pme (paf_ebb_enable_branches T s).2.BESCR = true ∧
    pme (paf_ebb_disable_branches T (paf_ebb_enable_branches T s).2).2.BESCR = false ∧
    (pme (paf_ebb_disable_branches T (paf_ebb_enable_branches T s).2).2.BESCR
        = pme s.BESCR
      ↔ pme s.BESCR = false) := by
  have he : paf_ebb_enable_branches T s = (0, PAF_EBB_ENABLE s) := by
    simp [paf_ebb_enable_branches, hcap]
  have hcap' : has_ebb T (PAF_EBB_ENABLE s) = true := by
    simpa [has_ebb, PAF_EBB_ENABLE, mtspr] using hcap
  have hd : paf_ebb_disable_branches T (PAF_EBB_ENABLE s)
      = (0, PAF_EBB_DISABLE (PAF_EBB_ENABLE s)) := by
    simp [paf_ebb_disable_branches, hcap']
  have hoff : pme (PAF_EBB_DISABLE (PAF_EBB_ENABLE s)).BESCR = false := by
    simp only [pme, PAF_EBB_DISABLE, PAF_EBB_ENABLE, mtspr, BESCR_PME, Nat.testBit_xor,
      Nat.testBit_and, Nat.testBit_or, Nat.testBit_two_pow_self]
    cases s.BESCR.testBit (63 - 31) <;> rfl
  rw [he, hd]
  refine ⟨rfl, rfl, ?_, hoff, ?_⟩
  · simp only [pme, PAF_EBB_ENABLE, mtspr, BESCR_PME, Nat.testBit_or,
      Nat.testBit_two_pow_self, Bool.or_true]
  · rw [hoff]
    exact eq_comm

/-- An instance of C6 as amended: a thread whose BESCR holds `0x5`, with
the PME bit clear, has it clear again after enabling and disabling. -/
theorem enable_then_disable_witness :
    has_ebb ppc64 { fresh 1 [] with BESCR := 0x5 } = true ∧
    pme (paf_ebb_enable_branches ppc64 { fresh 1 [] with BESCR := 0x5 }).2.BESCR = true ∧
    pme (paf_ebb_disable_branches ppc64
      (paf_ebb_enable_branches ppc64 { fresh 1 [] with BESCR := 0x5 }).2).2.BESCR
      = pme ({ fresh 1 [] with BESCR := 0x5 } : Thread (List Int)).BESCR :=
  ⟨by decide,
   (enable_then_disable ppc64 { fresh 1 [] with BESCR := 0x5 } (by decide)).2.2.1,
   (enable_then_disable ppc64 { fresh 1 [] with BESCR := 0x5 }
      (by decide)).2.2.2.2.mpr (by decide)⟩

/-- C6 as stated fails: on a thread whose PME bit is set, enabling and
then disabling returns 0 twice and leaves the bit clear, not as it was. -/
theorem enable_then_disable_clears_set_bit :
    has_ebb ppc64 { fresh 1 [] with BESCR := BESCR_PME } = true ∧
    pme ({ fresh 1 [] with BESCR := BESCR_PME } : Thread (List Int)).BESCR = true ∧
    (paf_ebb_enable_branches ppc64 { fresh 1 [] with BESCR := BESCR_PME }).1 = 0 ∧
    (paf_ebb_disable_branches ppc64
      (paf_ebb_enable_branches ppc64 { fresh 1 [] with BESCR := BESCR_PME }).2).1 = 0 ∧
    pme (paf_ebb_disable_branches ppc64
      (paf_ebb_enable_branches ppc64 { fresh 1 [] with BESCR := BESCR_PME }).2).2.BESCR
      = false := by
  decide

end Paf
